import Mathlib

/-!
Verification of the FlickPick session matching-and-voting engine.

The definitions below are a shallow embedding of the server-side session
logic (`session.ts`, the solo+duo variant, whose duo path coincides with
the duo-only variant) and of the rating-cache hit path of `plex.ts`.

Modelling conventions:
* JavaScript numbers that the code only compares or takes min/max of are
  modelled as `Int` (years, runtimes, cursor indices) or `Rat` (rating
  values, which carry decimal points such as 7.5).
* `null` is modelled as `Option.none`.  Where the distinction between
  `undefined` and `null` matters (the rating cache schema), a three-way
  `JsField` type is used.
* `Math.random()`-driven Fisher-Yates shuffles are modelled as explicit
  shuffle functions supplied by a `MatchEnv` environment; theorems that
  need them to be real shuffles assume they permute their input.
* The external catalog (`getAllMovies`) and the enrichment call
  (`enrichMovieWithRatings`) are likewise supplied by `MatchEnv`.
* JavaScript objects used as string-keyed maps (`session.users`,
  `user.votes`, the session map) are modelled as association lists in
  insertion order, matching `Object.keys`/`Object.values` enumeration
  order; property assignment replaces in place or appends at the end.
-/

namespace FlickPick

/-- Three-valued JavaScript field: distinguishes a property that is absent
(`undefined`), explicitly `null`, or holding a value. -/
inductive JsField (α : Type) where
  | undefined : JsField α
  | null : JsField α
  | value : α → JsField α
deriving DecidableEq

namespace JsField

/-- True exactly on `value`. -/
def isValue {α : Type} : JsField α → Bool
  | .value _ => true
  | _ => false

/-- True exactly on `undefined`. -/
def isUndef {α : Type} : JsField α → Bool
  | .undefined => true
  | _ => false

end JsField

/-- Converts an `Option` (a fetched value that is either data or `null`)
into a `JsField`; a fetch result is never `undefined`. -/
def ofOption {α : Type} : Option α → JsField α
  | none => JsField.null
  | some a => JsField.value a

/-- Inclusive numeric range, as the `{ min, max }` objects of the code. -/
structure NumRange where
  min : Int
  max : Int
deriving DecidableEq

/-- Catalog movie restricted to the fields the session engine reads:
identity, filtering dimensions (year, genres, runtime, watched) and the
rating fields filled in by enrichment.  Presentation-only fields (poster,
summary, decade, cast, ...) are inert data and are omitted. -/
structure Movie where
  id : String
  title : String
  year : Int
  genres : List String
  runtime : Int
  watched : Bool
  imdbRating : Option Rat
  rtCriticRating : Option Rat
  rtAudienceRating : Option Rat
deriving DecidableEq

/-- One user's submitted constraints (`UserPreferences` in types.ts). -/
structure UserPreferences where
  genres : List String
  minImdbRating : Option Rat
  minRtCriticRating : Option Rat
  minRtAudienceRating : Option Rat
  runtimeRange : Option NumRange
  yearRange : Option NumRange
  includeWatched : Bool
deriving DecidableEq

/-- Per-user session state (`session.users[id]`). -/
structure UserState where
  name : String
  preferences : Option UserPreferences
  votes : List (String × Bool)
  votingComplete : Bool
deriving DecidableEq

/-- Matched-criteria summary stored for UI display. -/
structure MatchedCriteria where
  genres : List String
  genresSkipped : Bool
  yearRange : Option NumRange
  yearSkipped : Bool
  runtimeRange : Option NumRange
  runtimeSkipped : Bool
  minImdbRating : Option Rat
  ratingSkipped : Bool
deriving DecidableEq

/-- A matching session (the `Session` aggregate). -/
structure Session where
  code : String
  movieCount : Nat
  users : List (String × UserState)
  result : Option Movie
  matchedMovies : List Movie
  currentIndex : Int
  matchedCriteria : Option MatchedCriteria
deriving DecidableEq

/-- Creates a session with the given (generated) code, clamping the
requested movie count to [5, 100] as `createSession` does. -/
def createSession (code : String) (movieCount : Int) : Session :=
  { code := code
    movieCount := (min (max movieCount 5) 100).toNat
    users := []
    result := none
    matchedMovies := []
    currentIndex := 0
    matchedCriteria := none }

/-- Looks a user up by id in the session's user map. -/
def lookupUser (users : List (String × UserState)) (userId : String) :
    Option UserState :=
  (users.find? (fun p => p.1 == userId)).map Prod.snd

/-- Predicate `allUsersSubmitted`: 1 or 2 users, all with preferences. -/
def allUsersSubmitted (s : Session) : Bool :=
  s.users.length ≥ 1 && s.users.length ≤ 2 &&
    s.users.all (fun p => p.2.preferences ≠ none)

/-- Interval intersection `computeOverlappingRange`: missing ranges pass
through; on a real overlap the intersection is returned; when the
intersection is inverted (`min > max`) the function returns `null`. -/
def computeOverlappingRange :
    Option NumRange → Option NumRange → Option NumRange
  | none, none => none
  | none, some r => some r
  | some r, none => some r
  | some r1, some r2 =>
    let mn := max r1.min r2.min
    let mx := min r1.max r2.max
    if mn > mx then none else some ⟨mn, mx⟩

/-- Combined threshold `Math.max(t1 || 0, t2 || 0) || null`: missing
thresholds count as 0, and a combined value of 0 renormalizes to null. -/
def combineThreshold (a b : Option Rat) : Option Rat :=
  let m := max (a.getD 0) (b.getD 0)
  if m = 0 then none else some m

/-- First-pass catalog filter of `calculateMatch` (watched flag, per-user
genre overlap, combined year and runtime intervals). -/
def passesBasicFilter (prefs1 : UserPreferences)
    (prefs2 : Option UserPreferences) (includeWatched : Bool)
    (yearRange runtimeRange : Option NumRange) (m : Movie) : Bool :=
  if !includeWatched && m.watched then false
  else if !prefs1.genres.isEmpty &&
      !(m.genres.any (fun g => prefs1.genres.contains g)) then false
  else if (match prefs2 with
    | some p2 => !p2.genres.isEmpty &&
        !(m.genres.any (fun g => p2.genres.contains g))
    | none => false) then false
  else if (match yearRange with
    | some r => decide (m.year < r.min) || decide (m.year > r.max)
    | none => false) then false
  else if (match runtimeRange with
    | some r => decide (m.runtime < r.min) || decide (m.runtime > r.max)
    | none => false) then false
  else true

/-- One rating check of the post-enrichment filter, as in the source:
`if (threshold && rating !== null) { if (rating < threshold) continue; }`
— the candidate survives the check unless the threshold is truthy, the
rating non-null, and the rating below the threshold. -/
def ratingCheck (threshold rating : Option Rat) : Bool :=
  match threshold, rating with
  | some t, some r => !(decide (t ≠ 0) && decide (r < t))
  | _, _ => true

/-- Post-enrichment rating filter of `calculateMatch`: a candidate is kept
unless the combined IMDB check or the combined RT critic check rejects
it.  (The code checks no other rating source here.) -/
def passesRatingFilter (combined : UserPreferences) (m : Movie) : Bool :=
  ratingCheck combined.minImdbRating m.imdbRating &&
  ratingCheck combined.minRtCriticRating m.rtCriticRating

/-- External environment of `calculateMatch`: the catalog snapshot, the
enrichment function, and the two Fisher-Yates shuffle outcomes. -/
structure MatchEnv where
  catalog : List Movie
  enrich : Movie → Movie
  shuffle1 : List Movie → List Movie
  shuffle2 : List Movie → List Movie

/-- The matching algorithm `calculateMatch`, acting on one session.
Returns `none` when not all users have submitted (the code also returns
null for an unknown code, handled at the store layer).  Mirrors the
source: combine preferences, filter the catalog, shuffle, enrich the
first `min(candidates.length, movieCount)` candidates, filter by rating
thresholds, shuffle again, persist list + criteria + cursor, and set the
current movie only when the final list is non-empty. -/
def calculateMatch (env : MatchEnv) (s : Session) : Option Session :=
  if !allUsersSubmitted s then none
  else
    match s.users with
    | [] => none
    | (_, u1) :: rest =>
      match u1.preferences with
      | none => none
      | some prefs1 =>
        let prefs2 : Option UserPreferences :=
          match rest with
          | [] => none
          | (_, u2) :: _ => u2.preferences
        let yearRange :=
          match prefs2 with
          | none => prefs1.yearRange
          | some p2 => computeOverlappingRange prefs1.yearRange p2.yearRange
        let runtimeRange :=
          match prefs2 with
          | none => prefs1.runtimeRange
          | some p2 =>
            computeOverlappingRange prefs1.runtimeRange p2.runtimeRange
        let combinedPrefs : UserPreferences :=
          match prefs2 with
          | none =>
            { prefs1 with yearRange := yearRange, runtimeRange := runtimeRange }
          | some p2 =>
            { genres := (prefs1.genres ++ p2.genres).eraseDups
              yearRange := yearRange
              runtimeRange := runtimeRange
              minImdbRating :=
                combineThreshold prefs1.minImdbRating p2.minImdbRating
              minRtCriticRating :=
                combineThreshold prefs1.minRtCriticRating p2.minRtCriticRating
              minRtAudienceRating :=
                combineThreshold prefs1.minRtAudienceRating
                  p2.minRtAudienceRating
              includeWatched := prefs1.includeWatched && p2.includeWatched }
        let candidates := env.catalog.filter
          (passesBasicFilter prefs1 prefs2 combinedPrefs.includeWatched
            yearRange runtimeRange)
        let shuffled := env.shuffle1 candidates
        let maxToEnrich := min shuffled.length s.movieCount
        let enriched := ((shuffled.take maxToEnrich).map env.enrich).filter
          (passesRatingFilter combinedPrefs)
        let finalList := env.shuffle2 enriched
        let genresSkipped :=
          match prefs2 with
          | none => prefs1.genres.isEmpty
          | some p2 => prefs1.genres.isEmpty && p2.genres.isEmpty
        let yearSkipped :=
          match prefs2 with
          | none => prefs1.yearRange == none
          | some p2 => prefs1.yearRange == none && p2.yearRange == none
        let runtimeSkipped :=
          match prefs2 with
          | none => prefs1.runtimeRange == none
          | some p2 => prefs1.runtimeRange == none && p2.runtimeRange == none
        let imdbUnset : Option Rat → Bool := fun t =>
          t == none || t == some 0
        let ratingSkipped :=
          match prefs2 with
          | none => imdbUnset prefs1.minImdbRating
          | some p2 =>
            imdbUnset prefs1.minImdbRating && imdbUnset p2.minImdbRating
        let commonGenres :=
          match prefs2 with
          | none => prefs1.genres
          | some p2 => prefs1.genres.filter (fun g => p2.genres.contains g)
        let criteria : MatchedCriteria :=
          { genres :=
              if commonGenres.length > 0 then commonGenres
              else combinedPrefs.genres
            genresSkipped := genresSkipped
            yearRange := yearRange
            yearSkipped := yearSkipped
            runtimeRange := runtimeRange
            runtimeSkipped := runtimeSkipped
            minImdbRating := combinedPrefs.minImdbRating
            ratingSkipped := ratingSkipped }
        some { s with
          matchedMovies := finalList
          matchedCriteria := some criteria
          currentIndex := 0
          result :=
            match finalList with
            | [] => s.result
            | m :: _ => some m }

/-- Navigation payload returned by `rerollMovie` / `previousMovie`. -/
structure NavResult where
  result : Option Movie
  isLast : Bool
  isFirst : Bool
deriving DecidableEq

/-- Advances the cursor (`rerollMovie`): null on an empty candidate list;
at the end the cursor saturates at the last index and the current movie
is reported unchanged with `isLast = true`. -/
def rerollMovie (s : Session) : Option (NavResult × Session) :=
  if s.matchedMovies.length = 0 then none
  else
    let len : Int := s.matchedMovies.length
    let i := s.currentIndex + 1
    if i ≥ len then
      some ({ result := s.result, isLast := true, isFirst := false },
        { s with currentIndex := len - 1 })
    else
      let r := s.matchedMovies.get? i.toNat
      let nav : NavResult :=
        { result := r
          isLast := decide (i ≥ len - 1)
          isFirst := decide (i = 0) }
      some (nav, { s with currentIndex := i, result := r })

/-- Moves the cursor back (`previousMovie`): null on an empty candidate
list; at index 0 the cursor saturates and `isFirst = true` is reported. -/
def previousMovie (s : Session) : Option (NavResult × Session) :=
  if s.matchedMovies.length = 0 then none
  else
    let len : Int := s.matchedMovies.length
    let i := s.currentIndex - 1
    if i < 0 then
      some ({ result := s.result, isLast := false, isFirst := true },
        { s with currentIndex := 0 })
    else
      let r := s.matchedMovies.get? i.toNat
      let nav : NavResult :=
        { result := r
          isLast := decide (i ≥ len - 1)
          isFirst := decide (i = 0) }
      some (nav, { s with currentIndex := i, result := r })

/-- Sets or replaces a key in a JavaScript object used as a map: an
existing key keeps its position, a new key is appended at the end. -/
def upsertVote (votes : List (String × Bool)) (movieId : String)
    (v : Bool) : List (String × Bool) :=
  match votes with
  | [] => [(movieId, v)]
  | (k, w) :: rest =>
    if k == movieId then (movieId, v) :: rest
    else (k, w) :: upsertVote rest movieId v

/-- Result payload of `voteOnMovie`. -/
structure VoteResult where
  success : Bool
  votingComplete : Bool
deriving DecidableEq

/-- Replaces the state of the user with the given id. -/
def updateUser (users : List (String × UserState)) (userId : String)
    (u : UserState) : List (String × UserState) :=
  users.map (fun p => if p.1 == userId then (p.1, u) else p)

/-- Records a vote (`voteOnMovie`): null when the user is unknown;
otherwise the vote map is updated (overwriting any earlier vote on the
same movie id) and the user is flagged voting-complete once the number of
voted ids reaches the candidate-list length.  No membership check against
the candidate list is performed on `movieId`. -/
def voteOnMovie (s : Session) (userId movieId : String) (vote : Bool) :
    Option (VoteResult × Session) :=
  match lookupUser s.users userId with
  | none => none
  | some u =>
    let votes := upsertVote u.votes movieId vote
    let votingComplete := decide (votes.length ≥ s.matchedMovies.length)
    let u2 : UserState :=
      { u with votes := votes
               votingComplete :=
                 if votingComplete then true else u.votingComplete }
    some ({ success := true, votingComplete := votingComplete },
      { s with users := updateUser s.users userId u2 })

/-- Predicate `allVotingComplete`: at least one user and every user has
finished voting. -/
def allVotingComplete (s : Session) : Bool :=
  s.users.length ≥ 1 && s.users.all (fun p => p.2.votingComplete)

/-- The four agreement buckets of `getVotingResults`. -/
structure VotingResults where
  bothYes : List Movie
  user1No : List Movie
  user2No : List Movie
  bothNo : List Movie
deriving DecidableEq

/-- Classification loop of `getVotingResults`: the source pushes each
movie, in candidate-list order, onto exactly one bucket; this recursion
reproduces the same per-bucket orders by consing the head's bucket entry
onto the classification of the tail. -/
def classifyMovies (v1 v2 : Movie → Bool) : List Movie → VotingResults
  | [] => ⟨[], [], [], []⟩
  | m :: rest =>
    let acc := classifyMovies v1 v2 rest
    if v1 m && v2 m then { acc with bothYes := m :: acc.bothYes }
    else if !v1 m && !v2 m then { acc with bothNo := m :: acc.bothNo }
    else if !v1 m then { acc with user1No := m :: acc.user1No }
    else { acc with user2No := m :: acc.user2No }

/-- Looks up a user's raw vote on a movie id (undefined when absent). -/
def lookupVote (votes : List (String × Bool)) (movieId : String) :
    Option Bool :=
  (votes.find? (fun p => p.1 == movieId)).map Prod.snd

/-- Vote tally `getVotingResults` on one session: user 1 is the first
joined user, user 2 the second when present.  A raw vote of `true` counts
as yes, anything else (including a missing vote) as no; in solo mode the
absent second user counts as yes. -/
def getVotingResults (s : Session) : VotingResults :=
  let userIds := s.users.map Prod.fst
  let user1Id := userIds.get? 0
  let user2Id := userIds.get? 1
  let voteOf : Option String → Movie → Option Bool := fun uid m =>
    match uid with
    | none => none
    | some id => (lookupUser s.users id).bind (fun u => lookupVote u.votes m.id)
  let v1 : Movie → Bool := fun m => voteOf user1Id m == some true
  let v2 : Movie → Bool := fun m =>
    match user2Id with
    | none => true
    | some _ => voteOf user2Id m == some true
  classifyMovies v1 v2 s.matchedMovies

/-- The in-memory session map, keyed by (uppercase) session code. -/
abbrev SessionStore : Type := List (String × Session)

/-- Uppercasing `code.toUpperCase()`, written over the character list so
that concrete instances evaluate by reduction. -/
def toUpperCode (s : String) : String := ⟨s.data.map Char.toUpper⟩

/-- Session lookup `sessions.get(code.toUpperCase())`. -/
def getSessionStore (store : SessionStore) (code : String) :
    Option Session :=
  (store.find? (fun p => p.1 == toUpperCode code)).map Prod.snd

/-- Store-level `rerollMovie(code)`: null for an unknown code or an empty
candidate list. -/
def rerollMovieAt (store : SessionStore) (code : String) :
    Option (NavResult × Session) :=
  match getSessionStore store code with
  | none => none
  | some s => rerollMovie s

/-- Store-level `previousMovie(code)`: null for an unknown code or an
empty candidate list. -/
def previousMovieAt (store : SessionStore) (code : String) :
    Option (NavResult × Session) :=
  match getSessionStore store code with
  | none => none
  | some s => previousMovie s

/-- Typed HTTP-ish response of the transport layer. -/
inductive ApiResponse (α : Type) where
  | ok : α → ApiResponse α
  | error : Nat → String → ApiResponse α
deriving DecidableEq

/-- Handler of `POST /api/session/:code/reroll`: a null result becomes a
404 "Session not found". -/
def rerollEndpoint (store : SessionStore) (code : String) :
    ApiResponse NavResult :=
  match rerollMovieAt store code with
  | none => ApiResponse.error 404 "Session not found"
  | some (r, _) => ApiResponse.ok r

/-- Handler of `POST /api/session/:code/previous`: a null result becomes
a 404 "Session not found". -/
def previousEndpoint (store : SessionStore) (code : String) :
    ApiResponse NavResult :=
  match previousMovieAt store code with
  | none => ApiResponse.error 404 "Session not found"
  | some (r, _) => ApiResponse.ok r

/-- Payload of `GET /api/session/:code/result`. -/
structure MatchPayload where
  result : Option Movie
  totalMatches : Nat
  currentIndex : Int
  isLast : Bool
  matchedCriteria : Option MatchedCriteria
deriving DecidableEq

/-- Builds the result payload from a session. -/
def matchPayload (s : Session) : MatchPayload :=
  { result := s.result
    totalMatches := s.matchedMovies.length
    currentIndex := s.currentIndex
    isLast := decide (s.currentIndex ≥ (s.matchedMovies.length : Int) - 1)
    matchedCriteria := s.matchedCriteria }

/-- Handler of `GET /api/session/:code/result` on one (found) session:
400 when not everyone has submitted; the match is recomputed exactly when
the stored result is null AND the candidate list is empty, otherwise the
cached list is served.  Returns the response plus the updated session. -/
def getResultStep (env : MatchEnv) (s : Session) :
    ApiResponse MatchPayload × Session :=
  if !allUsersSubmitted s then
    (ApiResponse.error 400 "Not all users have submitted preferences", s)
  else if s.result.isNone && s.matchedMovies.isEmpty then
    match calculateMatch env s with
    | some s2 => (ApiResponse.ok (matchPayload s2), s2)
    | none => (ApiResponse.error 500 "Failed to calculate match", s)
  else (ApiResponse.ok (matchPayload s), s)

/-- One cast member of a rating-cache entry. -/
structure CastMember where
  name : String
  image : Option String
deriving DecidableEq

/-- A rating-cache entry (`OmdbRatings` in plex.ts).  Every field can be
absent (`undefined`) in an entry deserialized from an old cache file,
which is exactly what the backfill logic tests for; fresh entries are
fully populated (value or null). -/
structure OmdbRatings where
  imdbRating : JsField Rat
  rtCriticRating : JsField Rat
  rtAudienceRating : JsField Rat
  tmdbRating : JsField Rat
  tmdbVoteCount : JsField Int
  imdbId : JsField String
  contentRating : JsField String
  director : JsField String
  directorImage : JsField String
  cast : JsField (List CastMember)
  backdrop : JsField String
  keywords : JsField (List String)
  collection : JsField String
deriving DecidableEq

/-- Result of `fetchTmdbMovieData`: on any degradation (missing key, bad
response, no search hit, thrown error) every facet is null and the
keyword list empty. -/
structure TmdbMovieData where
  tmdbRating : Option Rat
  tmdbVoteCount : Option Int
  backdrop : Option String
  keywords : List String
  collection : Option String
deriving DecidableEq

/-- Parsed OMDB retry response used on the cache-hit path.  A field is
`some` exactly when the raw JSON field is present, truthy and (where the
code checks) not the string "N/A"; rating strings are already parsed. -/
structure OmdbRetryResponse where
  responseTrue : Bool
  imdbRating : Option Rat
  imdbID : Option String
  rated : Option String
  director : Option String
  rtRating : Option Rat
deriving DecidableEq

/-- Truthiness of a JavaScript string field: `undefined`, `null` and the
empty string are falsy. -/
def jsTruthyStr (f : JsField String) : Bool :=
  match f with
  | JsField.value s => s ≠ ""
  | _ => false

/-- TMDB half of the cache-hit update (plex.ts lines 206-216): when
`tmdbRating` or `backdrop` is absent (old cache format) all five
TMDB-derived fields are overwritten with the fresh fetch results. -/
def tmdbBackfill (cached : OmdbRatings) (tmdb : TmdbMovieData) :
    OmdbRatings :=
  if cached.tmdbRating.isUndef || cached.backdrop.isUndef then
    { cached with
      tmdbRating := ofOption tmdb.tmdbRating
      tmdbVoteCount := ofOption tmdb.tmdbVoteCount
      backdrop := ofOption tmdb.backdrop
      keywords := JsField.value tmdb.keywords
      collection := ofOption tmdb.collection }
  else cached

/-- OMDB half of the cache-hit update (plex.ts lines 219-263): when both
`imdbRating` and `imdbId` are exactly null (a previously rate-limited
lookup) and an API key is configured, the primary lookup is retried once
and only fields present in a successful response are written.
`omdb = none` models a thrown fetch (caught and ignored). -/
def omdbRetry (c1 : OmdbRatings) (omdbKeySet : Bool)
    (omdb : Option OmdbRetryResponse) : OmdbRatings :=
  if c1.imdbRating == JsField.null && c1.imdbId == JsField.null &&
      omdbKeySet then
    match omdb with
    | none => c1
    | some data =>
      if data.responseTrue then
        let c2 :=
          match data.imdbRating with
          | some r => { c1 with imdbRating := JsField.value r }
          | none => c1
        let c3 :=
          match data.imdbID with
          | some i => { c2 with imdbId := JsField.value i }
          | none => c2
        let c4 :=
          match data.rated with
          | some x => { c3 with contentRating := JsField.value x }
          | none => c3
        let c5 :=
          match data.director with
          | some d =>
            if !jsTruthyStr c4.director then
              { c4 with director := JsField.value d }
            else c4
          | none => c4
        match data.rtRating with
        | some r => { c5 with rtCriticRating := JsField.value r }
        | none => c5
      else c1
  else c1

/-- Cache-hit update of `fetchOmdbRatings` (plex.ts lines 203-263): the
TMDB backfill followed by the OMDB retry, both over the same entry. -/
def backfillCacheHit (cached : OmdbRatings) (tmdb : TmdbMovieData)
    (omdbKeySet : Bool) (omdb : Option OmdbRetryResponse) : OmdbRatings :=
  omdbRetry (tmdbBackfill cached tmdb) omdbKeySet omdb

/-- Legacy cache entry for the C8 counterexample: the TMDB rating and
collection are already known (non-null), but the backdrop field predates
the schema and is absent. -/
def cachedC8 : OmdbRatings :=
  { imdbRating := JsField.value 7
    rtCriticRating := JsField.value 80
    rtAudienceRating := JsField.null
    tmdbRating := JsField.value (15 / 2)
    tmdbVoteCount := JsField.value 1000
    imdbId := JsField.value "tt0000001"
    contentRating := JsField.value "PG"
    director := JsField.value "Doc"
    directorImage := JsField.null
    cast := JsField.value []
    backdrop := JsField.undefined
    keywords := JsField.value ["toys"]
    collection := JsField.value "Pixar" }

/-- Fully degraded TMDB fetch result: every facet null, no keywords. -/
def tmdbFailC8 : TmdbMovieData :=
  { tmdbRating := none
    tmdbVoteCount := none
    backdrop := none
    keywords := []
    collection := none }

/-- Fully present cache entry (backdrop explicitly null rather than
absent), for the C8 witness: the TMDB backfill does not fire on it. -/
def cachedC8W : OmdbRatings := { cachedC8 with backdrop := JsField.null }

/-! Concrete inputs used by the counterexamples and witnesses below. -/

/-- An unconstrained preference set. -/
def basePrefs : UserPreferences :=
  { genres := []
    minImdbRating := none
    minRtCriticRating := none
    minRtAudienceRating := none
    runtimeRange := none
    yearRange := none
    includeWatched := true }

/-- A fresh user state holding the given preferences. -/
def mkUser (p : Option UserPreferences) : UserState :=
  { name := "u", preferences := p, votes := [], votingComplete := false }

/-- A catalog movie with no genre tags, runtime 100, unwatched, and no
ratings yet. -/
def baseMovie : Movie :=
  { id := "1"
    title := "Alpha"
    year := 2000
    genres := []
    runtime := 100
    watched := false
    imdbRating := none
    rtCriticRating := none
    rtAudienceRating := none }

/-- A family of distinct catalog movies. -/
def mv (n : Nat) : Movie :=
  { baseMovie with id := toString n, title := toString n }

/-- An environment with identity shuffles and identity enrichment over
the given catalog. -/
def idEnv (catalog : List Movie) : MatchEnv :=
  { catalog := catalog
    enrich := id
    shuffle1 := id
    shuffle2 := id }

/-- Duo session for claim C1: user A wants runtime 60-90, user B wants
runtime 120-150 (an inverted intersection). -/
def sessC1 : Session :=
  { createSession "C1AAAA" 25 with
    users :=
      [("u1", mkUser (some { basePrefs with runtimeRange := some ⟨60, 90⟩ })),
       ("u2", mkUser (some { basePrefs with runtimeRange := some ⟨120, 150⟩ }))] }

/-- Solo session for claim C2: candidate budget 5, minimum IMDB rating 8. -/
def sessC2 : Session :=
  { createSession "C2AAAA" 5 with
    users := [("u1", mkUser (some { basePrefs with minImdbRating := some 8 }))] }

/-- Catalog of six movies for claim C2. -/
def catalogC2 : List Movie := [mv 1, mv 2, mv 3, mv 4, mv 5, mv 6]

/-- Enrichment for claim C2: movie "6" rates 9, the others rate 1. -/
def enrichC2 : Movie → Movie := fun m =>
  { m with imdbRating := if m.id == "6" then some 9 else some 1 }

/-- Claim C2 environment for the first result fetch: shuffles leave the
filtered list in catalog order, so the budget of 5 picks movies 1-5. -/
def envC2a : MatchEnv :=
  { catalog := catalogC2, enrich := enrichC2, shuffle1 := id, shuffle2 := id }

/-- Claim C2 environment for the second fetch: the first shuffle reverses
the filtered list, so the budget of 5 now picks movie 6. -/
def envC2b : MatchEnv :=
  { catalog := catalogC2, enrich := enrichC2, shuffle1 := List.reverse,
    shuffle2 := id }

/-- Solo session for claim C3: minimum RT audience rating 60. -/
def sessC3 : Session :=
  { createSession "C3AAAA" 25 with
    users :=
      [("u1", mkUser (some { basePrefs with minRtAudienceRating := some 60 }))] }

/-- Claim C3 environment: enrichment reports an RT audience score of 10,
far below the threshold of 60. -/
def envC3 : MatchEnv :=
  { catalog := [baseMovie]
    enrich := fun m => { m with rtAudienceRating := some 10 }
    shuffle1 := id
    shuffle2 := id }

/-- Preference set selecting only the Comedy genre. -/
def prefsComedy : UserPreferences := { basePrefs with genres := ["Comedy"] }

/-- Preference set selecting only the Horror genre. -/
def prefsHorror : UserPreferences := { basePrefs with genres := ["Horror"] }

/-- Duo session for claim C4: user 1 selected only Comedy, user 2 only
Horror. -/
def sessC4 : Session :=
  { createSession "C4AAAA" 25 with
    users :=
      [("u1", mkUser (some prefsComedy)), ("u2", mkUser (some prefsHorror))] }

/-- A movie tagged Comedy but not Horror, for the C4 witness catalog. -/
def mComedy : Movie := { baseMovie with id := "c", genres := ["Comedy"] }

/-- Spec-side restatement of the first-pass filter, written from the
spec's words: watched movies need include-watched, the movie's genres
must intersect each contributing user's own non-empty genre selection,
and year and runtime must lie in the combined inclusive intervals. -/
def basicFilterSpec (prefs1 : UserPreferences)
    (prefs2 : Option UserPreferences) (includeWatched : Bool)
    (yearRange runtimeRange : Option NumRange) (m : Movie) : Prop :=
  (includeWatched = true ∨ m.watched = false) ∧
  (prefs1.genres = [] ∨ ∃ g, g ∈ m.genres ∧ g ∈ prefs1.genres) ∧
  (∀ q, prefs2 = some q →
    (q.genres = [] ∨ ∃ g, g ∈ m.genres ∧ g ∈ q.genres)) ∧
  (∀ r, yearRange = some r → (r.min ≤ m.year ∧ m.year ≤ r.max)) ∧
  (∀ r, runtimeRange = some r → (r.min ≤ m.runtime ∧ m.runtime ≤ r.max))

/-- A session whose match has been computed with a non-empty candidate
list, for the C2 witness. -/
def sessC2W : Session :=
  { createSession "C2BBBB" 5 with
    users := [("u1", mkUser (some basePrefs))]
    matchedMovies := [baseMovie]
    result := some baseMovie }

/-- A fresh session whose match has not yet been computed, so its
candidate list is empty, for the C10 witness. -/
def sessC10 : Session := createSession "C10AAA" 25

/-- A one-session store for the C10 witness. -/
def storeC10 : SessionStore := [("C10AAA", sessC10)]

/-- A session with one joined user who has not yet submitted or voted,
for the C9 witness. -/
def sessC9 : Session :=
  { createSession "C9AAAA" 25 with users := [("u1", mkUser none)] }

/-- First duo voter for the C5 witness: yes on movie "1", no on movie
"2", no vote on movie "3". -/
def userC5A : UserState :=
  { name := "A"
    preferences := some basePrefs
    votes := [("1", true), ("2", false)]
    votingComplete := true }

/-- Second duo voter for the C5 witness: yes on "1" and "2", no on "3". -/
def userC5B : UserState :=
  { name := "B"
    preferences := some basePrefs
    votes := [("1", true), ("2", true), ("3", false)]
    votingComplete := true }

/-- Duo session with three candidates and completed votes, for the C5
witness. -/
def sessC5 : Session :=
  { createSession "C5AAAA" 25 with
    users := [("a", userC5A), ("b", userC5B)]
    matchedMovies := [mv 1, mv 2, mv 3] }

/-- Solo voter for the C6 witness: yes on "1", no on "2", no vote on
"3". -/
def userC6 : UserState :=
  { name := "S"
    preferences := some basePrefs
    votes := [("1", true), ("2", false)]
    votingComplete := true }

/-- Solo session with three candidates, for the C6 witness. -/
def sessC6W : Session :=
  { createSession "C6AAAA" 25 with
    users := [("s", userC6)]
    matchedMovies := [mv 1, mv 2, mv 3] }

/-- Cursor-navigation contract for one session with a non-empty
candidate list and an in-range cursor: both moves keep the cursor inside
[0, length-1] and never touch the candidate list; a reroll at the last
index and a previous at index 0 saturate, reporting isLast / isFirst
with the current movie unchanged; and every successful ±1 move sets the
current movie to the candidate at the new cursor. -/
def cursorNavSpec (s : Session) : Prop :=
  (∃ r s2, rerollMovie s = some (r, s2) ∧ 0 ≤ s2.currentIndex ∧
    s2.currentIndex < (s.matchedMovies.length : Int) ∧
    s2.matchedMovies = s.matchedMovies) ∧
  (∃ r s2, previousMovie s = some (r, s2) ∧ 0 ≤ s2.currentIndex ∧
    s2.currentIndex < (s.matchedMovies.length : Int) ∧
    s2.matchedMovies = s.matchedMovies) ∧
  (s.currentIndex = (s.matchedMovies.length : Int) - 1 →
    ∃ r s2, rerollMovie s = some (r, s2) ∧ r.isLast = true ∧
      r.result = s.result ∧ s2.currentIndex = s.currentIndex) ∧
  (s.currentIndex = 0 →
    ∃ r s2, previousMovie s = some (r, s2) ∧ r.isFirst = true ∧
      r.result = s.result ∧ s2.currentIndex = 0) ∧
  (s.currentIndex + 1 < (s.matchedMovies.length : Int) →
    ∃ r s2, rerollMovie s = some (r, s2) ∧
      s2.currentIndex = s.currentIndex + 1 ∧
      s2.result = s.matchedMovies.get? (s.currentIndex + 1).toNat ∧
      r.result = s2.result) ∧
  (0 < s.currentIndex →
    ∃ r s2, previousMovie s = some (r, s2) ∧
      s2.currentIndex = s.currentIndex - 1 ∧
      s2.result = s.matchedMovies.get? (s.currentIndex - 1).toNat ∧
      r.result = s2.result)

/-- Session with two candidates and the cursor at 0, for the C7
witness. -/
def sessC7 : Session :=
  { createSession "C7AAAA" 25 with
    users := [("u1", mkUser (some basePrefs))]
    matchedMovies := [mv 1, mv 2]
    result := some (mv 1) }

/-! Helper lemmas shared by the claim theorems. -/

/-- The first-pass filter agrees with its spec-side restatement. -/
theorem passesBasicFilter_iff (prefs1 : UserPreferences)
    (prefs2 : Option UserPreferences) (includeWatched : Bool)
    (yearRange runtimeRange : Option NumRange) (m : Movie) :
    passesBasicFilter prefs1 prefs2 includeWatched yearRange runtimeRange m
        = true ↔
      basicFilterSpec prefs1 prefs2 includeWatched yearRange runtimeRange m := by
  unfold passesBasicFilter basicFilterSpec
  cases hw : m.watched <;> cases hiw : includeWatched <;>
    cases h2 : prefs2 <;> cases hy : yearRange <;> cases hr : runtimeRange <;>
    simp [List.isEmpty_iff, List.any_eq_true, List.elem_iff]

/-- The classification loop splits the movie list into the four filters
given by the two vote predicates, preserving list order. -/
theorem classifyMovies_eq_filters (v1 v2 : Movie → Bool) (l : List Movie) :
    classifyMovies v1 v2 l =
      { bothYes := l.filter (fun m => v1 m && v2 m)
        user1No := l.filter (fun m => !v1 m && v2 m)
        user2No := l.filter (fun m => v1 m && !v2 m)
        bothNo := l.filter (fun m => !v1 m && !v2 m) } := by
  induction l with
  | nil => rfl
  | cons m rest ih =>
    cases h1 : v1 m <;> cases h2 : v2 m <;>
      simp [classifyMovies, ih, List.filter_cons, h1, h2]

/-- The four complementary filters of a two-predicate classification
partition the list: their lengths sum to the list's length. -/
theorem filter_four_way_length (v1 v2 : Movie → Bool) (l : List Movie) :
    (l.filter (fun m => v1 m && v2 m)).length +
      (l.filter (fun m => !v1 m && v2 m)).length +
      (l.filter (fun m => v1 m && !v2 m)).length +
      (l.filter (fun m => !v1 m && !v2 m)).length = l.length := by
  induction l with
  | nil => rfl
  | cons m rest ih =>
    cases h1 : v1 m <;> cases h2 : v2 m <;>
      simp [List.filter_cons, h1, h2] <;> omega

/-- After replacing a present user's state, looking the user up returns
the replacement. -/
theorem lookupUser_updateUser (users : List (String × UserState))
    (userId : String) (u u2 : UserState)
    (h : lookupUser users userId = some u) :
    lookupUser (updateUser users userId u2) userId = some u2 := by
  induction users with
  | nil => simp [lookupUser] at h
  | cons p rest ih =>
    by_cases hp : (p.1 == userId) = true
    · unfold lookupUser updateUser
      rw [List.map_cons, if_pos hp,
        List.find?_cons_of_pos (p := fun q : String × UserState => q.1 == userId)
          (a := (p.1, u2)) _ hp]
      rfl
    · unfold lookupUser at h
      rw [List.find?_cons_of_neg
        (p := fun q : String × UserState => q.1 == userId) _ hp] at h
      unfold lookupUser updateUser
      rw [List.map_cons, if_neg hp,
        List.find?_cons_of_neg (p := fun q : String × UserState => q.1 == userId)
          (a := p) _ hp]
      exact ih h

/-- A key of the updated vote map is an old key or the inserted key. -/
theorem mem_upsertVote_keys (votes : List (String × Bool))
    (movieId a : String) (v : Bool)
    (h : a ∈ (upsertVote votes movieId v).map Prod.fst) :
    a ∈ votes.map Prod.fst ∨ a = movieId := by
  induction votes with
  | nil =>
    right
    simpa [upsertVote] using h
  | cons p rest ih =>
    obtain ⟨k, w⟩ := p
    by_cases hp : (k == movieId) = true
    · rw [upsertVote, if_pos hp, List.map_cons, List.mem_cons] at h
      rcases h with h1 | h1
      · right; exact h1
      · left; rw [List.map_cons, List.mem_cons]; right; exact h1
    · rw [upsertVote, if_neg hp, List.map_cons, List.mem_cons] at h
      rcases h with h1 | h1
      · left; rw [List.map_cons, List.mem_cons]; left; exact h1
      · rcases ih h1 with h2 | h2
        · left; rw [List.map_cons, List.mem_cons]; right; exact h2
        · right; exact h2

/-- Setting a vote keeps the vote map's keys duplicate-free, so the
map's length counts distinct voted movie ids. -/
theorem upsertVote_keys_nodup (votes : List (String × Bool))
    (movieId : String) (v : Bool)
    (h : (votes.map Prod.fst).Nodup) :
    ((upsertVote votes movieId v).map Prod.fst).Nodup := by
  induction votes with
  | nil => simp [upsertVote]
  | cons p rest ih =>
    obtain ⟨k, w⟩ := p
    rw [List.map_cons, List.nodup_cons] at h
    by_cases hp : (k == movieId) = true
    · have he : k = movieId := by simpa using hp
      rw [upsertVote, if_pos hp, List.map_cons, List.nodup_cons]
      exact ⟨by rw [← he]; exact h.1, h.2⟩
    · have hne : k ≠ movieId := by simpa using hp
      rw [upsertVote, if_neg hp, List.map_cons, List.nodup_cons]
      refine ⟨fun hmem => ?_, ih h.2⟩
      rcases mem_upsertVote_keys rest movieId k v hmem with h2 | h2
      · exact h.1 h2
      · exact hne h2

/-- One rating check rejects exactly when the threshold is set (non-null
and non-zero) and the rating is non-null and strictly below it. -/
theorem ratingCheck_eq_false_iff (a b : Option Rat) :
    ratingCheck a b = false ↔
      ∃ t r, a = some t ∧ t ≠ 0 ∧ b = some r ∧ r < t := by
  cases a <;> cases b <;> simp [ratingCheck]

/-- The TMDB backfill never touches the non-TMDB fields of an entry. -/
theorem tmdbBackfill_nonTmdb_fields (cached : OmdbRatings)
    (tmdb : TmdbMovieData) :
    (tmdbBackfill cached tmdb).imdbRating = cached.imdbRating ∧
    (tmdbBackfill cached tmdb).rtCriticRating = cached.rtCriticRating ∧
    (tmdbBackfill cached tmdb).rtAudienceRating = cached.rtAudienceRating ∧
    (tmdbBackfill cached tmdb).imdbId = cached.imdbId ∧
    (tmdbBackfill cached tmdb).contentRating = cached.contentRating ∧
    (tmdbBackfill cached tmdb).director = cached.director ∧
    (tmdbBackfill cached tmdb).directorImage = cached.directorImage ∧
    (tmdbBackfill cached tmdb).cast = cached.cast := by
  unfold tmdbBackfill
  split <;> simp

/-- When both trigger fields are present the TMDB backfill is a no-op. -/
theorem tmdbBackfill_of_present (cached : OmdbRatings)
    (tmdb : TmdbMovieData) (h1 : cached.tmdbRating.isUndef = false)
    (h2 : cached.backdrop.isUndef = false) :
    tmdbBackfill cached tmdb = cached := by
  unfold tmdbBackfill
  simp [h1, h2]

/-- The OMDB retry is skipped entirely when the IMDB rating is a value. -/
theorem omdbRetry_of_imdbRating_value (c1 : OmdbRatings) (k : Bool)
    (o : Option OmdbRetryResponse) (a : Rat)
    (h : c1.imdbRating = JsField.value a) :
    omdbRetry c1 k o = c1 := by
  unfold omdbRetry
  rw [h]
  simp

/-- The OMDB retry is skipped entirely when the IMDB id is a value. -/
theorem omdbRetry_of_imdbId_value (c1 : OmdbRatings) (k : Bool)
    (o : Option OmdbRetryResponse) (i : String)
    (h : c1.imdbId = JsField.value i) :
    omdbRetry c1 k o = c1 := by
  unfold omdbRetry
  rw [h]
  simp

/-- The OMDB retry never touches the RT audience rating. -/
theorem omdbRetry_rtAudience (c1 : OmdbRatings) (k : Bool)
    (o : Option OmdbRetryResponse) :
    (omdbRetry c1 k o).rtAudienceRating = c1.rtAudienceRating := by
  unfold omdbRetry
  split
  · rcases o with _ | ⟨rt, ir, iid, rd, dir, rr⟩
    · rfl
    · cases rt <;> cases ir <;> cases iid <;> cases rd <;> cases dir <;>
        cases rr <;> dsimp only <;> split_ifs <;> rfl
  · rfl

/-- The OMDB retry never touches the director image. -/
theorem omdbRetry_directorImage (c1 : OmdbRatings) (k : Bool)
    (o : Option OmdbRetryResponse) :
    (omdbRetry c1 k o).directorImage = c1.directorImage := by
  unfold omdbRetry
  split
  · rcases o with _ | ⟨rt, ir, iid, rd, dir, rr⟩
    · rfl
    · cases rt <;> cases ir <;> cases iid <;> cases rd <;> cases dir <;>
        cases rr <;> dsimp only <;> split_ifs <;> rfl
  · rfl

/-- The OMDB retry never touches the cast list. -/
theorem omdbRetry_cast (c1 : OmdbRatings) (k : Bool)
    (o : Option OmdbRetryResponse) :
    (omdbRetry c1 k o).cast = c1.cast := by
  unfold omdbRetry
  split
  · rcases o with _ | ⟨rt, ir, iid, rd, dir, rr⟩
    · rfl
    · cases rt <;> cases ir <;> cases iid <;> cases rd <;> cases dir <;>
        cases rr <;> dsimp only <;> split_ifs <;> rfl
  · rfl

/-- The OMDB retry never touches the TMDB rating. -/
theorem omdbRetry_tmdbRating (c1 : OmdbRatings) (k : Bool)
    (o : Option OmdbRetryResponse) :
    (omdbRetry c1 k o).tmdbRating = c1.tmdbRating := by
  unfold omdbRetry
  split
  · rcases o with _ | ⟨rt, ir, iid, rd, dir, rr⟩
    · rfl
    · cases rt <;> cases ir <;> cases iid <;> cases rd <;> cases dir <;>
        cases rr <;> dsimp only <;> split_ifs <;> rfl
  · rfl

/-- The OMDB retry never touches the TMDB vote count. -/
theorem omdbRetry_tmdbVoteCount (c1 : OmdbRatings) (k : Bool)
    (o : Option OmdbRetryResponse) :
    (omdbRetry c1 k o).tmdbVoteCount = c1.tmdbVoteCount := by
  unfold omdbRetry
  split
  · rcases o with _ | ⟨rt, ir, iid, rd, dir, rr⟩
    · rfl
    · cases rt <;> cases ir <;> cases iid <;> cases rd <;> cases dir <;>
        cases rr <;> dsimp only <;> split_ifs <;> rfl
  · rfl

/-- The OMDB retry never touches the backdrop. -/
theorem omdbRetry_backdrop (c1 : OmdbRatings) (k : Bool)
    (o : Option OmdbRetryResponse) :
    (omdbRetry c1 k o).backdrop = c1.backdrop := by
  unfold omdbRetry
  split
  · rcases o with _ | ⟨rt, ir, iid, rd, dir, rr⟩
    · rfl
    · cases rt <;> cases ir <;> cases iid <;> cases rd <;> cases dir <;>
        cases rr <;> dsimp only <;> split_ifs <;> rfl
  · rfl

/-- The OMDB retry never touches the keyword list. -/
theorem omdbRetry_keywords (c1 : OmdbRatings) (k : Bool)
    (o : Option OmdbRetryResponse) :
    (omdbRetry c1 k o).keywords = c1.keywords := by
  unfold omdbRetry
  split
  · rcases o with _ | ⟨rt, ir, iid, rd, dir, rr⟩
    · rfl
    · cases rt <;> cases ir <;> cases iid <;> cases rd <;> cases dir <;>
        cases rr <;> dsimp only <;> split_ifs <;> rfl
  · rfl

/-- The OMDB retry never touches the collection. -/
theorem omdbRetry_collection (c1 : OmdbRatings) (k : Bool)
    (o : Option OmdbRetryResponse) :
    (omdbRetry c1 k o).collection = c1.collection := by
  unfold omdbRetry
  split
  · rcases o with _ | ⟨rt, ir, iid, rd, dir, rr⟩
    · rfl
    · cases rt <;> cases ir <;> cases iid <;> cases rd <;> cases dir <;>
        cases rr <;> dsimp only <;> split_ifs <;> rfl
  · rfl

/-- The OMDB retry keeps a known RT critic rating a value (it may
update it, but never erases it). -/
theorem omdbRetry_rtCritic_isValue (c1 : OmdbRatings) (k : Bool)
    (o : Option OmdbRetryResponse)
    (h : c1.rtCriticRating.isValue = true) :
    (omdbRetry c1 k o).rtCriticRating.isValue = true := by
  unfold omdbRetry
  split
  · rcases o with _ | ⟨rt, ir, iid, rd, dir, rr⟩
    · exact h
    · cases rt <;> cases ir <;> cases iid <;> cases rd <;> cases dir <;>
        cases rr <;> dsimp only <;> split_ifs <;> (first | exact h | rfl)
  · exact h

/-- The OMDB retry keeps a known content rating a value. -/
theorem omdbRetry_contentRating_isValue (c1 : OmdbRatings) (k : Bool)
    (o : Option OmdbRetryResponse)
    (h : c1.contentRating.isValue = true) :
    (omdbRetry c1 k o).contentRating.isValue = true := by
  unfold omdbRetry
  split
  · rcases o with _ | ⟨rt, ir, iid, rd, dir, rr⟩
    · exact h
    · cases rt <;> cases ir <;> cases iid <;> cases rd <;> cases dir <;>
        cases rr <;> dsimp only <;> split_ifs <;> (first | exact h | rfl)
  · exact h

/-- The OMDB retry keeps a known director a value. -/
theorem omdbRetry_director_isValue (c1 : OmdbRatings) (k : Bool)
    (o : Option OmdbRetryResponse)
    (h : c1.director.isValue = true) :
    (omdbRetry c1 k o).director.isValue = true := by
  unfold omdbRetry
  split
  · rcases o with _ | ⟨rt, ir, iid, rd, dir, rr⟩
    · exact h
    · cases rt <;> cases ir <;> cases iid <;> cases rd <;> cases dir <;>
        cases rr <;> dsimp only <;> split_ifs <;> (first | exact h | rfl)
  · exact h

/-! Claim theorems. -/

/-- C1: `computeOverlappingRange` maps the inverted intersection of
runtime ranges [60,90] and [120,150] to null, and null is treated as
*unconstrained* by the candidate filter, so `calculateMatch` on a duo
session with those two runtime ranges matches a 100-minute movie instead
of producing the empty candidate list that the claim (and the code's own
comment "will result in no matches") requires. -/
theorem c1_code_evaluation :
    computeOverlappingRange (some ⟨60, 90⟩) (some ⟨120, 150⟩) = none ∧
    (calculateMatch (idEnv [baseMovie]) sessC1).map Session.matchedMovies =
      some [baseMovie] ∧
    baseMovie.runtime = 100 := by
  refine ⟨rfl, ?_, rfl⟩
  decide

/-- C2 counterexample: a solo session with budget 5 over a 6-movie
catalog where only movie "6" clears the IMDB threshold.  The first fetch
computes an empty candidate list (the passing movie fell outside the
enrichment budget), so the guard "result is null AND candidate list is
empty" still holds and the second fetch recomputes, this time producing a
non-empty list — compute-match called twice does not return the same
list. -/
theorem c2_counterexample :
    ((getResultStep envC2a sessC2).2.matchedMovies = []) ∧
    ((getResultStep envC2b
        (getResultStep envC2a sessC2).2).2.matchedMovies ≠ []) := by
  constructor
  · decide
  · decide

/-- C2 amended: once the computed candidate list is non-empty, every
later fetch — under any environment, hence without recomputing — returns
the cached list unchanged and leaves the session untouched. -/
theorem c2_amended (env2 : MatchEnv) (s : Session)
    (hsub : allUsersSubmitted s = true) (hne : s.matchedMovies ≠ []) :
    getResultStep env2 s = (ApiResponse.ok (matchPayload s), s) := by
  unfold getResultStep
  rw [hsub]
  simp [List.isEmpty_iff, hne]

/-- C2 witness: the amended theorem applied to a concrete session with a
computed one-movie candidate list. -/
theorem c2_amended_witness :
    getResultStep (idEnv []) sessC2W =
      (ApiResponse.ok (matchPayload sessC2W), sessC2W) :=
  c2_amended (idEnv []) sessC2W (by decide) (by decide)

/-- C3 counterexample: a solo session whose single user set a minimum RT
audience rating of 60; enrichment reports an audience score of 10, yet
the candidate is kept — the post-enrichment filter never checks the RT
audience threshold, contradicting the claim that every combined rating
threshold (including RT audience) is enforced. -/
theorem c3_counterexample :
    (lookupUser sessC3.users "u1").map
        (fun u => u.preferences.map UserPreferences.minRtAudienceRating) =
      some (some (some 60)) ∧
    (calculateMatch envC3 sessC3).map Session.matchedMovies =
      some [{ baseMovie with rtAudienceRating := some 10 }] ∧
    (10 : Rat) < 60 := by
  refine ⟨by decide, by decide, by decide⟩

/-- C3 amended: a candidate fails the post-enrichment filter exactly
when the combined IMDB or RT critic threshold is set (non-null,
non-zero) and the corresponding rating is non-null and below it — null
ratings can never cause a rejection — and the filter is entirely
independent of the candidate's RT audience rating. -/
theorem c3_amended (c : UserPreferences) (m : Movie) :
    (passesRatingFilter c m = false ↔
      ((∃ t r, c.minImdbRating = some t ∧ t ≠ 0 ∧
          m.imdbRating = some r ∧ r < t) ∨
        (∃ t r, c.minRtCriticRating = some t ∧ t ≠ 0 ∧
          m.rtCriticRating = some r ∧ r < t))) ∧
    (∀ v, passesRatingFilter c { m with rtAudienceRating := v } =
      passesRatingFilter c m) := by
  constructor
  · unfold passesRatingFilter
    rw [Bool.and_eq_false_iff, ratingCheck_eq_false_iff,
      ratingCheck_eq_false_iff]
  · intro v
    rfl

/-- C4: the first-pass filter demands genre overlap against each
contributing user's own non-empty genre selection (not merely the
union), per the characterization `basicFilterSpec`; consequently a duo
session with disjoint selections Comedy / Horror over any catalog
without a doubly-tagged movie — under any pair of real shuffles —
computes an empty candidate list, a null result, and totalMatches 0. -/
theorem c4_thm :
    (∀ (prefs1 : UserPreferences) (prefs2 : Option UserPreferences)
        (iw : Bool) (yr rr : Option NumRange) (m : Movie),
      passesBasicFilter prefs1 prefs2 iw yr rr m = true ↔
        basicFilterSpec prefs1 prefs2 iw yr rr m) ∧
    (∀ env : MatchEnv,
      (∀ l, (env.shuffle1 l).Perm l) →
      (∀ l, (env.shuffle2 l).Perm l) →
      (∀ m ∈ env.catalog, ¬("Comedy" ∈ m.genres ∧ "Horror" ∈ m.genres)) →
      ∃ s2, calculateMatch env sessC4 = some s2 ∧
        s2.matchedMovies = [] ∧ s2.result = none ∧
        (matchPayload s2).totalMatches = 0) := by
  refine ⟨passesBasicFilter_iff, ?_⟩
  intro env hs1 hs2 hcat
  have hfilter : env.catalog.filter
      (passesBasicFilter prefsComedy (some prefsHorror) true none none)
        = [] := by
    rw [List.filter_eq_nil_iff]
    intro m hm
    intro hpass
    have hspec := (passesBasicFilter_iff prefsComedy (some prefsHorror)
      true none none m).mp hpass
    obtain ⟨-, hg1, hg2, -, -⟩ := hspec
    rcases hg1 with hg1 | ⟨g, hgm, hgc⟩
    · simp [prefsComedy, basePrefs] at hg1
    · have hc : "Comedy" ∈ m.genres := by
        simp [prefsComedy, basePrefs] at hgc
        rwa [hgc] at hgm
      rcases hg2 prefsHorror rfl with hg2 | ⟨g2, hgm2, hgh⟩
      · simp [prefsHorror, basePrefs] at hg2
      · have hh : "Horror" ∈ m.genres := by
          simp [prefsHorror, basePrefs] at hgh
          rwa [hgh] at hgm2
        exact hcat m hm ⟨hc, hh⟩
  have h1 : env.shuffle1 ([] : List Movie) = [] := (hs1 []).eq_nil
  have h2 : env.shuffle2 ([] : List Movie) = [] := (hs2 []).eq_nil
  unfold calculateMatch
  have hu : sessC4.users =
      [("u1", mkUser (some prefsComedy)), ("u2", mkUser (some prefsHorror))] :=
    rfl
  rw [show allUsersSubmitted sessC4 = true from by decide]
  simp only [Bool.not_true, Bool.false_eq_true, if_false, hu, mkUser]
  simp only [show (prefsComedy.includeWatched && prefsHorror.includeWatched)
      = true from rfl,
    show computeOverlappingRange prefsComedy.yearRange prefsHorror.yearRange
      = none from rfl,
    show computeOverlappingRange prefsComedy.runtimeRange
      prefsHorror.runtimeRange = none from rfl]
  rw [hfilter, h1]
  simp only [List.take_nil, List.map_nil, List.filter_nil, h2]
  exact ⟨_, rfl, rfl, rfl, rfl⟩

/-- C4 witness: the scenario applied to the identity-shuffle environment
over a catalog holding one Comedy-only movie. -/
theorem c4_witness :
    ∃ s2, calculateMatch (idEnv [mComedy]) sessC4 = some s2 ∧
      s2.matchedMovies = [] ∧ s2.result = none ∧
      (matchPayload s2).totalMatches = 0 :=
  c4_thm.2 (idEnv [mComedy]) (fun l => List.Perm.refl l)
    (fun l => List.Perm.refl l) (by decide)

/-- C5: in a duo session the tally buckets are precisely the four
order-preserving filters of the candidate list by the two users' yes
votes, where a vote counts as yes only when recorded as `true` (a
missing vote counts as no); the four bucket sizes sum to the candidate
count, so every candidate lands in exactly one bucket. -/
theorem c5_thm (s : Session) (id1 id2 : String) (u1 u2 : UserState)
    (h : s.users = [(id1, u1), (id2, u2)]) (hid : id1 ≠ id2)
    (hvc : allVotingComplete s = true) :
    getVotingResults s =
      { bothYes := s.matchedMovies.filter
          (fun m => (lookupVote u1.votes m.id == some true) &&
            (lookupVote u2.votes m.id == some true))
        user1No := s.matchedMovies.filter
          (fun m => !(lookupVote u1.votes m.id == some true) &&
            (lookupVote u2.votes m.id == some true))
        user2No := s.matchedMovies.filter
          (fun m => (lookupVote u1.votes m.id == some true) &&
            !(lookupVote u2.votes m.id == some true))
        bothNo := s.matchedMovies.filter
          (fun m => !(lookupVote u1.votes m.id == some true) &&
            !(lookupVote u2.votes m.id == some true)) } ∧
    (getVotingResults s).bothYes.length +
      (getVotingResults s).user1No.length +
      (getVotingResults s).user2No.length +
      (getVotingResults s).bothNo.length = s.matchedMovies.length := by
  have hb : (id1 == id2) = false := by
    simpa using hid
  have heq : getVotingResults s =
      { bothYes := s.matchedMovies.filter
          (fun m => (lookupVote u1.votes m.id == some true) &&
            (lookupVote u2.votes m.id == some true))
        user1No := s.matchedMovies.filter
          (fun m => !(lookupVote u1.votes m.id == some true) &&
            (lookupVote u2.votes m.id == some true))
        user2No := s.matchedMovies.filter
          (fun m => (lookupVote u1.votes m.id == some true) &&
            !(lookupVote u2.votes m.id == some true))
        bothNo := s.matchedMovies.filter
          (fun m => !(lookupVote u1.votes m.id == some true) &&
            !(lookupVote u2.votes m.id == some true)) } := by
    unfold getVotingResults
    rw [h]
    rw [classifyMovies_eq_filters]
    simp [lookupUser, hb]
  refine ⟨heq, ?_⟩
  rw [heq]
  exact filter_four_way_length _ _ _

/-- C5 witness: the theorem applied to a concrete duo session with three
candidates, one missing vote, and both users voting-complete. -/
theorem c5_witness :
    getVotingResults sessC5 =
      { bothYes := sessC5.matchedMovies.filter
          (fun m => (lookupVote userC5A.votes m.id == some true) &&
            (lookupVote userC5B.votes m.id == some true))
        user1No := sessC5.matchedMovies.filter
          (fun m => !(lookupVote userC5A.votes m.id == some true) &&
            (lookupVote userC5B.votes m.id == some true))
        user2No := sessC5.matchedMovies.filter
          (fun m => (lookupVote userC5A.votes m.id == some true) &&
            !(lookupVote userC5B.votes m.id == some true))
        bothNo := sessC5.matchedMovies.filter
          (fun m => !(lookupVote userC5A.votes m.id == some true) &&
            !(lookupVote userC5B.votes m.id == some true)) } ∧
    (getVotingResults sessC5).bothYes.length +
      (getVotingResults sessC5).user1No.length +
      (getVotingResults sessC5).user2No.length +
      (getVotingResults sessC5).bothNo.length =
        sessC5.matchedMovies.length :=
  c5_thm sessC5 "a" "b" userC5A userC5B rfl (by decide) (by decide)

/-- C6: in a solo session every candidate the user voted yes lands in
bothYes, every other candidate (voted no, or not voted) lands in
user1No, and user2No and bothNo are always empty. -/
theorem c6_thm (s : Session) (id1 : String) (u1 : UserState)
    (h : s.users = [(id1, u1)]) :
    getVotingResults s =
      { bothYes := s.matchedMovies.filter
          (fun m => lookupVote u1.votes m.id == some true)
        user1No := s.matchedMovies.filter
          (fun m => !(lookupVote u1.votes m.id == some true))
        user2No := []
        bothNo := [] } := by
  unfold getVotingResults
  rw [h]
  rw [classifyMovies_eq_filters]
  simp [lookupUser]

/-- C6 witness: the theorem applied to a concrete solo session with
three candidates. -/
theorem c6_witness :
    getVotingResults sessC6W =
      { bothYes := sessC6W.matchedMovies.filter
          (fun m => lookupVote userC6.votes m.id == some true)
        user1No := sessC6W.matchedMovies.filter
          (fun m => !(lookupVote userC6.votes m.id == some true))
        user2No := []
        bothNo := [] } :=
  c6_thm sessC6W "s" userC6 rfl

/-- C10: for an unknown session code and equally for a found session
whose candidate list is empty, `rerollMovie` and `previousMovie` return
null, and the API layer turns that null into the same
404 "Session not found" response in both cases. -/
theorem c10_thm (store : SessionStore) (code : String) :
    (getSessionStore store code = none →
      rerollEndpoint store code = ApiResponse.error 404 "Session not found" ∧
      previousEndpoint store code = ApiResponse.error 404 "Session not found") ∧
    (∀ s, getSessionStore store code = some s → s.matchedMovies = [] →
      rerollMovieAt store code = none ∧
      previousMovieAt store code = none ∧
      rerollEndpoint store code = ApiResponse.error 404 "Session not found" ∧
      previousEndpoint store code = ApiResponse.error 404 "Session not found") := by
  constructor
  · intro h
    constructor <;>
      simp [rerollEndpoint, previousEndpoint, rerollMovieAt, previousMovieAt, h]
  · intro s hs hempty
    have hr : rerollMovie s = none := by simp [rerollMovie, hempty]
    have hp : previousMovie s = none := by simp [previousMovie, hempty]
    refine ⟨?_, ?_, ?_, ?_⟩ <;>
      simp [rerollMovieAt, previousMovieAt, rerollEndpoint, previousEndpoint,
        hs, hr, hp]

/-- C10 witness: the theorem applied to the empty store with an unknown
code, and to a store holding a fresh session (empty candidate list) that
is looked up through the case-insensitive code path. -/
theorem c10_witness :
    (rerollEndpoint [] "NOCODE" = ApiResponse.error 404 "Session not found" ∧
      previousEndpoint [] "NOCODE" =
        ApiResponse.error 404 "Session not found") ∧
    (rerollMovieAt storeC10 "c10aaa" = none ∧
      previousMovieAt storeC10 "c10aaa" = none ∧
      rerollEndpoint storeC10 "c10aaa" =
        ApiResponse.error 404 "Session not found" ∧
      previousEndpoint storeC10 "c10aaa" =
        ApiResponse.error 404 "Session not found") :=
  ⟨(c10_thm [] "NOCODE").1 (by decide),
   (c10_thm storeC10 "c10aaa").2 sessC10 (by decide) rfl⟩

/-- C7: with a non-empty candidate list and an in-range cursor, both
navigation moves keep the cursor inside [0, length-1]; reroll at the
last index and previous at index 0 saturate with isLast / isFirst true
and the current movie unchanged; every successful ±1 move updates the
current movie to the candidate at the new cursor. -/
theorem c7_thm (s : Session) (hne : s.matchedMovies ≠ [])
    (h0 : 0 ≤ s.currentIndex)
    (h1 : s.currentIndex < (s.matchedMovies.length : Int)) :
    cursorNavSpec s := by
  have hlen0 : ¬(s.matchedMovies.length = 0) := by
    simpa [List.length_eq_zero] using hne
  have hlenpos : 1 ≤ (s.matchedMovies.length : Int) := by
    omega
  unfold cursorNavSpec rerollMovie previousMovie
  rw [if_neg hlen0, if_neg hlen0]
  refine ⟨?_, ?_, ?_, ?_, ?_, ?_⟩
  · by_cases hc : s.currentIndex + 1 ≥ (s.matchedMovies.length : Int)
    · rw [if_pos hc]
      exact ⟨_, _, rfl, by dsimp only; omega, by dsimp only; omega, rfl⟩
    · rw [if_neg hc]
      exact ⟨_, _, rfl, by dsimp only; omega, by dsimp only; omega, rfl⟩
  · by_cases hc : s.currentIndex - 1 < 0
    · rw [if_pos hc]
      exact ⟨_, _, rfl, by dsimp only; omega, by dsimp only; omega, rfl⟩
    · rw [if_neg hc]
      exact ⟨_, _, rfl, by dsimp only; omega, by dsimp only; omega, rfl⟩
  · intro hlast
    rw [if_pos
      (by omega : s.currentIndex + 1 ≥ (s.matchedMovies.length : Int))]
    exact ⟨_, _, rfl, rfl, rfl, by dsimp only; omega⟩
  · intro hzero
    rw [if_pos (by omega : s.currentIndex - 1 < 0)]
    exact ⟨_, _, rfl, rfl, rfl, rfl⟩
  · intro hlt
    rw [if_neg
      (by omega : ¬(s.currentIndex + 1 ≥ (s.matchedMovies.length : Int)))]
    exact ⟨_, _, rfl, rfl, rfl, rfl⟩
  · intro hpos
    rw [if_neg (by omega : ¬(s.currentIndex - 1 < 0))]
    exact ⟨_, _, rfl, rfl, rfl, rfl⟩

/-- C7 witness: the navigation contract at a concrete two-candidate
session with the cursor at index 0. -/
theorem c7_witness : cursorNavSpec sessC7 :=
  c7_thm sessC7 (by decide) (by decide) (by decide)

/-- C9: `voteOnMovie` succeeds for any movie id string — no membership
check against the candidate list — the voting-complete flag is precisely
"number of (distinct) voted ids reaches the candidate-list length", and
when the candidate list is empty the very first vote immediately marks
the user voting-complete. -/
theorem c9_thm (s : Session) (userId movieId : String)
    (vote : Bool) (u : UserState)
    (h : lookupUser s.users userId = some u) :
    ∃ r s2, voteOnMovie s userId movieId vote = some (r, s2) ∧
      r.success = true ∧
      r.votingComplete =
        decide ((upsertVote u.votes movieId vote).length ≥
          s.matchedMovies.length) ∧
      ((u.votes.map Prod.fst).Nodup →
        ((upsertVote u.votes movieId vote).map Prod.fst).Nodup) ∧
      (s.matchedMovies = [] →
        r.votingComplete = true ∧
        lookupUser s2.users userId = some
          { u with votes := upsertVote u.votes movieId vote,
                   votingComplete := true }) := by
  unfold voteOnMovie
  rw [h]
  refine ⟨_, _, rfl, rfl, rfl,
    fun hn => upsertVote_keys_nodup _ _ _ hn, fun hemp => ⟨?_, ?_⟩⟩
  · simp [hemp]
  · have hl := lookupUser_updateUser s.users userId u
      { u with votes := upsertVote u.votes movieId vote
               votingComplete :=
                 if decide ((upsertVote u.votes movieId vote).length ≥
                     s.matchedMovies.length) = true then true
                 else u.votingComplete } h
    simp only [hemp, List.length_nil] at hl ⊢
    simpa using hl

/-- C9 witness: the theorem applied to a fresh session (empty candidate
list) and a movie id that is certainly not in any candidate list. -/
theorem c9_witness :
    ∃ r s2, voteOnMovie sessC9 "u1" "not-a-candidate" true = some (r, s2) ∧
      r.success = true ∧
      r.votingComplete =
        decide ((upsertVote (mkUser none).votes "not-a-candidate" true).length ≥
          sessC9.matchedMovies.length) ∧
      (((mkUser none).votes.map Prod.fst).Nodup →
        ((upsertVote (mkUser none).votes "not-a-candidate" true).map
          Prod.fst).Nodup) ∧
      (sessC9.matchedMovies = [] →
        r.votingComplete = true ∧
        lookupUser s2.users "u1" = some
          { mkUser none with
              votes := upsertVote (mkUser none).votes "not-a-candidate" true,
              votingComplete := true }) :=
  c9_thm sessC9 "u1" "not-a-candidate" true (mkUser none) (by decide)

/-- C8 counterexample: a legacy entry whose backdrop is absent but whose
TMDB rating (15/2) and collection ("Pixar") are already known.  The
backfill fires (backdrop undefined), fetches ALL five TMDB facets, and a
degraded fetch overwrites the known rating and collection with null —
refuting "merges without discarding already-known fields / once non-null
never overwritten with null". -/
theorem c8_counterexample :
    cachedC8.tmdbRating = JsField.value (15 / 2) ∧
    cachedC8.collection = JsField.value "Pixar" ∧
    (backfillCacheHit cachedC8 tmdbFailC8 false none).tmdbRating
      = JsField.null ∧
    (backfillCacheHit cachedC8 tmdbFailC8 false none).collection
      = JsField.null :=
  ⟨rfl, rfl, rfl, rfl⟩

/-- C8 amended: the cache-hit update preserves every non-TMDB field's
known values — a value IMDB rating or id disables the retry entirely,
known RT critic rating / content rating / director stay values, RT
audience, director image and cast are untouched — and when neither
trigger field (tmdbRating, backdrop) is absent, all five TMDB-derived
fields are left unchanged.  Only a firing TMDB backfill can replace a
non-null field (one of the five TMDB fields) with null. -/
theorem c8_amended (cached : OmdbRatings) (tmdb : TmdbMovieData)
    (k : Bool) (o : Option OmdbRetryResponse) :
    (∀ a, cached.imdbRating = JsField.value a →
      (backfillCacheHit cached tmdb k o).imdbRating = JsField.value a) ∧
    (∀ i, cached.imdbId = JsField.value i →
      (backfillCacheHit cached tmdb k o).imdbId = JsField.value i) ∧
    (cached.rtCriticRating.isValue = true →
      (backfillCacheHit cached tmdb k o).rtCriticRating.isValue = true) ∧
    (cached.contentRating.isValue = true →
      (backfillCacheHit cached tmdb k o).contentRating.isValue = true) ∧
    (cached.director.isValue = true →
      (backfillCacheHit cached tmdb k o).director.isValue = true) ∧
    (backfillCacheHit cached tmdb k o).rtAudienceRating
      = cached.rtAudienceRating ∧
    (backfillCacheHit cached tmdb k o).directorImage
      = cached.directorImage ∧
    (backfillCacheHit cached tmdb k o).cast = cached.cast ∧
    (cached.tmdbRating.isUndef = false → cached.backdrop.isUndef = false →
      (backfillCacheHit cached tmdb k o).tmdbRating = cached.tmdbRating ∧
      (backfillCacheHit cached tmdb k o).tmdbVoteCount
        = cached.tmdbVoteCount ∧
      (backfillCacheHit cached tmdb k o).backdrop = cached.backdrop ∧
      (backfillCacheHit cached tmdb k o).keywords = cached.keywords ∧
      (backfillCacheHit cached tmdb k o).collection = cached.collection) := by
  obtain ⟨hF1, hF2, hF3, hF4, hF5, hF6, hF7, hF8⟩ :=
    tmdbBackfill_nonTmdb_fields cached tmdb
  unfold backfillCacheHit
  refine ⟨?_, ?_, ?_, ?_, ?_, ?_, ?_, ?_, ?_⟩
  · intro a h
    have hc : (tmdbBackfill cached tmdb).imdbRating = JsField.value a := by
      rw [hF1]; exact h
    rw [omdbRetry_of_imdbRating_value _ k o a hc]
    exact hc
  · intro i h
    have hc : (tmdbBackfill cached tmdb).imdbId = JsField.value i := by
      rw [hF4]; exact h
    rw [omdbRetry_of_imdbId_value _ k o i hc]
    exact hc
  · intro h
    exact omdbRetry_rtCritic_isValue _ k o (by rw [hF2]; exact h)
  · intro h
    exact omdbRetry_contentRating_isValue _ k o (by rw [hF5]; exact h)
  · intro h
    exact omdbRetry_director_isValue _ k o (by rw [hF6]; exact h)
  · rw [omdbRetry_rtAudience]
    exact hF3
  · rw [omdbRetry_directorImage]
    exact hF7
  · rw [omdbRetry_cast]
    exact hF8
  · intro h1 h2
    rw [tmdbBackfill_of_present cached tmdb h1 h2]
    exact ⟨omdbRetry_tmdbRating _ k o, omdbRetry_tmdbVoteCount _ k o,
      omdbRetry_backdrop _ k o, omdbRetry_keywords _ k o,
      omdbRetry_collection _ k o⟩

/-- C8 witness: the amended theorem applied to a fully present entry
with a degraded TMDB fetch: the known IMDB rating and TMDB rating
survive. -/
theorem c8_amended_witness :
    (backfillCacheHit cachedC8W tmdbFailC8 true none).imdbRating
      = JsField.value 7 ∧
    (backfillCacheHit cachedC8W tmdbFailC8 true none).tmdbRating
      = cachedC8W.tmdbRating := by
  have h := c8_amended cachedC8W tmdbFailC8 true none
  exact ⟨h.1 7 rfl, (h.2.2.2.2.2.2.2.2 rfl rfl).1⟩

end FlickPick
